import Mathlib

/-!
Shallow embedding of the `power_monitor` Django backend
(`Alieyuib/spm-backend`), covering the parts of the code that the
verified claims are about:

* `ReportService.generate_report`, `_get_date_range`,
  `_get_device_statistics` and `send_report`
  (src/power_monitor/services/report_service.py);
* `AlertViewSet.create`, `_send_whatsapp_alert`, `acknowledge`,
  `resolve` (src/power_monitor/views.py);
* `WhatsAppService.send_alert_message`, `send_report_summary`,
  `_send_message`, `_create_mock_message`
  (src/power_monitor/services/whatsapp_service.py);
* `EmailService.send_report_email` and the HTML / plain-text report
  figure formatting (src/power_monitor/services/email_service.py);
* `PDFReportService` report figure formatting
  (src/power_monitor/services/pdf_service.py).

Modelling conventions: calendar dates are absolute day numbers (`Int`),
so Python `timedelta(days = n)` is integer subtraction; Python floats
are modelled as exact rationals (`ℚ`); Django querysets are lists of
records carried on the owning `DeviceData`; `None`-returning fallible
paths are `Option`.
-/

namespace PowerMonitor

/-- A calendar date, as an absolute day number. -/
abbrev Date := Int

/-- `Device` model (models.py): the fields the report path reads. -/
structure Device where
  device_id : String
  device_name : String
deriving DecidableEq

/-- One `DailyConsumption` row (models.py) for a device. -/
structure DailyConsumptionRec where
  date : Date
  total_consumption : ℚ
  total_cost : ℚ
  peak_power : ℚ
deriving DecidableEq

/-- One `PowerReading` row (models.py): `dateOf` is `timestamp__date`,
and `power_factor` is the field read by `_get_device_statistics`. -/
structure PowerReadingRec where
  dateOf : Date
  power_factor : ℚ
deriving DecidableEq

/-- One `Alert` row as seen by `_get_device_statistics`
(`timestamp__date` and `severity`). -/
structure AlertRec where
  dateOf : Date
  severity : String
deriving DecidableEq

/-- A device together with its database rows (the querysets
`DailyConsumption.objects.filter(device=...)`,
`PowerReading.objects.filter(device=...)`,
`Alert.objects.filter(device=...)`). -/
structure DeviceData where
  device : Device
  consumption_records : List DailyConsumptionRec
  readings : List PowerReadingRec
  alerts : List AlertRec
deriving DecidableEq

/-- `Client` model (models.py): contact fields, delivery preferences and
the attached device set (`client.devices.all()`). -/
structure Client where
  name : String
  email : String
  whatsapp_number : String
  receive_email_reports : Bool
  receive_whatsapp_alerts : Bool
  devices : List DeviceData
deriving DecidableEq

/-- The per-device statistics dict returned by
`ReportService._get_device_statistics` (report_service.py lines 129-139). -/
structure DeviceStats where
  device_id : String
  device_name : String
  consumption : ℚ
  cost : ℚ
  peak_power : ℚ
  power_factors : List ℚ
  uptime : ℚ
  alerts : Nat
  critical_alerts : Nat
deriving DecidableEq

/-- The `EnergyReport` row created by `generate_report`
(report_service.py lines 59-78); `device_data` is
`report_data['devices']`. -/
structure EnergyReport where
  report_type : String
  start_date : Date
  end_date : Date
  total_consumption_kwh : ℚ
  total_cost : ℚ
  avg_daily_consumption : ℚ
  peak_power : ℚ
  avg_power_factor : ℚ
  uptime_hours : ℚ
  total_alerts : Nat
  critical_alerts : Nat
  device_data : List DeviceStats
deriving DecidableEq

/-- Django `Sum(...)` aggregate over a queryset column: `None` on an
empty queryset, otherwise the sum. -/
def sumAgg (l : List ℚ) : Option ℚ :=
  if l.isEmpty then none else some l.sum

/-- Django `Max(...)` aggregate over a queryset column: `None` on an
empty queryset, otherwise the maximum. -/
def maxAgg (l : List ℚ) : Option ℚ :=
  l.maximum

/-- Python `x or 0` applied to an aggregate result (report_service.py
lines 132-134): `None` becomes `0`.  (Python also maps a stored `0.0`
to `0`, which is the same value.) -/
def orZero (o : Option ℚ) : ℚ := o.getD 0

/-- `date__range=[start_date, end_date]` filter on a device's
`DailyConsumption` rows (report_service.py lines 101-104). -/
def consumptionInRange (dd : DeviceData) (start_date end_date : Date) :
    List DailyConsumptionRec :=
  dd.consumption_records.filter
    (fun r => decide (start_date ≤ r.date) && decide (r.date ≤ end_date))

/-- `timestamp__date__range=[start_date, end_date]` filter on a device's
`PowerReading` rows (report_service.py lines 113-116). -/
def readingsInRange (dd : DeviceData) (start_date end_date : Date) :
    List PowerReadingRec :=
  dd.readings.filter
    (fun r => decide (start_date ≤ r.dateOf) && decide (r.dateOf ≤ end_date))

/-- `timestamp__date__range=[start_date, end_date]` filter on a device's
`Alert` rows (report_service.py lines 124-127). -/
def alertsInRange (dd : DeviceData) (start_date end_date : Date) :
    List AlertRec :=
  dd.alerts.filter
    (fun r => decide (start_date ≤ r.dateOf) && decide (r.dateOf ≤ end_date))

/-- `ReportService._get_device_statistics` (report_service.py lines
98-139): aggregates one device's rows over a closed date interval.
`uptime` is `readings.count() * (5 / 60)` hours (5-minute samples). -/
def getDeviceStatistics (dd : DeviceData) (start_date end_date : Date) :
    DeviceStats :=
  let consumption_records := consumptionInRange dd start_date end_date
  let readings := readingsInRange dd start_date end_date
  let alerts := alertsInRange dd start_date end_date
  { device_id := dd.device.device_id
    device_name := dd.device.device_name
    consumption := orZero (sumAgg (consumption_records.map (·.total_consumption)))
    cost := orZero (sumAgg (consumption_records.map (·.total_cost)))
    peak_power := orZero (maxAgg (consumption_records.map (·.peak_power)))
    power_factors := readings.map (·.power_factor)
    uptime := (readings.length : ℚ) * (5 / 60)
    alerts := alerts.length
    critical_alerts := (alerts.filter (fun a => a.severity = "CRITICAL")).length }

/-- `ReportService._get_date_range` (report_service.py lines 83-96),
with `timezone.now().date()` passed in as `today`.  Any report type
other than DAILY / WEEKLY / MONTHLY falls into the final `else` branch. -/
def getDateRange (today : Date) (report_type : String) : Date × Date :=
  let end_date := today
  let start_date :=
    if report_type = "DAILY" then end_date
    else if report_type = "WEEKLY" then end_date - 6
    else if report_type = "MONTHLY" then end_date - 29
    else end_date - 6
  (start_date, end_date)

/-- The date-range resolution at the top of `generate_report`
(report_service.py lines 21-22): if either bound is missing, both are
replaced by the `_get_date_range` default. -/
def resolveRange (today : Date) (report_type : String)
    (start_date? end_date? : Option Date) : Date × Date :=
  match start_date?, end_date? with
  | some s, some e => (s, e)
  | _, _ => getDateRange today report_type

/-- The aggregation body of `ReportService.generate_report`
(report_service.py lines 31-78), for a non-empty device set: the
per-device accumulation loop of lines 41-51 is the `foldl`s below,
with the loop's initial values (`0` / `[]`), followed by the average
calculations of lines 53-56 and the `EnergyReport.objects.create` of
lines 59-78. -/
def buildReport (report_type : String) (start_date end_date : Date)
    (devices : List DeviceData) : EnergyReport :=
  let device_data := devices.map (fun d => getDeviceStatistics d start_date end_date)
    let total_consumption := device_data.foldl (fun a s => a + s.consumption) 0
    let total_cost := device_data.foldl (fun a s => a + s.cost) 0
    let peak_power := device_data.foldl (fun a s => max a s.peak_power) 0
    let power_factors := device_data.foldl (fun a s => a ++ s.power_factors) []
    let uptime_hours := device_data.foldl (fun a s => a + s.uptime) 0
    let total_alerts := device_data.foldl (fun a s => a + s.alerts) 0
    let critical_alerts := device_data.foldl (fun a s => a + s.critical_alerts) 0
    let days_in_period := end_date - start_date + 1
    let avg_daily_consumption :=
      if 0 < days_in_period then total_consumption / (days_in_period : ℚ) else 0
    let avg_power_factor :=
      if power_factors.isEmpty then 0
      else power_factors.sum / (power_factors.length : ℚ)
    { report_type := report_type
      start_date := start_date
      end_date := end_date
      total_consumption_kwh := total_consumption
      total_cost := total_cost
      avg_daily_consumption := avg_daily_consumption
      peak_power := peak_power
      avg_power_factor := avg_power_factor
      uptime_hours := uptime_hours
      total_alerts := total_alerts
      critical_alerts := critical_alerts
      device_data := device_data }

/-- `ReportService.generate_report` (report_service.py lines 16-81):
resolves the date range (lines 21-22), chooses the device set (line
25: the explicit device if given, else all the client's devices),
returns `none` exactly where the Python returns `None` (lines 27-29,
empty device set — no `EnergyReport` row is created), and otherwise
the created report. -/
def generate_report (today : Date) (client : Client) (report_type : String)
    (device : Option DeviceData) (start_date? end_date? : Option Date) :
    Option EnergyReport :=
  let se := resolveRange today report_type start_date? end_date?
  let devices := match device with
    | some d => [d]
    | none => client.devices
  if devices.isEmpty then none
  else some (buildReport report_type se.1 se.2 devices)

/-! ### WhatsApp dispatch (whatsapp_service.py, views.py) -/

/-- A `WhatsAppMessage` row (models.py), as created by
`WhatsAppService._send_message` / `_create_mock_message`. -/
structure WhatsAppMessage where
  recipient : String
  message_type : String
  status : String
deriving DecidableEq

/-- `WhatsAppService._send_message` (whatsapp_service.py lines 156-207):
always creates one `WhatsAppMessage` row; its final status is `SENT`
when the Twilio call succeeds (`transportOk`) and `FAILED` otherwise.
The `whatsapp:` prefix normalisation of line 159-160 is applied. -/
def sendMessage (to_number : String) (transportOk : Bool)
    (message_type : String) : WhatsAppMessage :=
  let to_number :=
    if to_number.startsWith "whatsapp:" then to_number
    else "whatsapp:" ++ to_number
  { recipient := to_number
    message_type := message_type
    status := if transportOk then "SENT" else "FAILED" }

/-- `WhatsAppService._create_mock_message` (whatsapp_service.py lines
209-224): the record is created with status `SENT` ("Mock as sent");
with no client, the recipient is the hard-coded placeholder number. -/
def createMockMessage (client : Option Client) : WhatsAppMessage :=
  { recipient :=
      match client with
      | some c => c.whatsapp_number
      | none => "whatsapp:+1234567890"
    message_type := "alert"
    status := "SENT" }

/-- `WhatsAppService._get_alert_recipients` (whatsapp_service.py lines
76-100), for the `client=None` path taken by the alert view: all
active clients of the device with WhatsApp alerts enabled and a
non-empty WhatsApp number. -/
def getAlertRecipients (deviceClients : List Client) : List Client :=
  (deviceClients.filter (fun c => c.receive_whatsapp_alerts)).filter
    (fun c => !(c.whatsapp_number = ""))

/-- `WhatsAppService.send_alert_message` (whatsapp_service.py lines
34-56), with `client=None` as called from the alert view: when the
transport is unconfigured (`enabled = false`) it creates the single
mock `SENT` record; when configured it sends one message per
recipient, or returns `none` ("no recipients") creating no record. -/
def sendAlertMessage (enabled : Bool) (transportOk : Bool)
    (deviceClients : List Client) : Option (List WhatsAppMessage) :=
  if !enabled then some [createMockMessage none]
  else
    let recipients := getAlertRecipients deviceClients
    if recipients.isEmpty then none
    else some (recipients.map (fun c => sendMessage c.whatsapp_number transportOk "alert"))

/-- The severity gate of `AlertViewSet._send_whatsapp_alert`
(views.py lines 297-303): the WhatsApp notification is triggered only
for `WARNING` and `CRITICAL` severities. -/
def whatsappAlertTriggered (severity : String) : Bool :=
  severity = "WARNING" || severity = "CRITICAL"

/-- The `WhatsAppMessage` rows produced by `AlertViewSet.create`
(views.py lines 280-295) for a newly stored alert of the given
severity: `_send_whatsapp_alert` is called, which dispatches through
`WhatsAppService.send_alert_message` only when the severity gate
passes; otherwise no notification record is created. -/
def alertCreateMessages (enabled : Bool) (transportOk : Bool)
    (deviceClients : List Client) (severity : String) : List WhatsAppMessage :=
  if whatsappAlertTriggered severity then
    (sendAlertMessage enabled transportOk deviceClients).getD []
  else []

/-- `WhatsAppService.send_report_summary` (whatsapp_service.py lines
58-74): returns `None` (creating no record) when the transport is
unconfigured or the client has WhatsApp alerts disabled; otherwise
one `_send_message` record of type `report`. -/
def sendReportSummary (enabled : Bool) (transportOk : Bool)
    (client : Client) : Option WhatsAppMessage :=
  if !enabled then none
  else if !client.receive_whatsapp_alerts then none
  else some (sendMessage client.whatsapp_number transportOk "report")

/-! ### Email dispatch (email_service.py) -/

/-- `EmailService.send_report_email` (email_service.py lines 42-86),
as a value whose Python truthiness the caller tests: unconfigured
transport returns `True` (the mock log path, line 46); a client with
no email address or with email reports disabled returns `None`; a real
send returns `True` on success and `False` on exception. -/
def sendReportEmail (enabled : Bool) (transportOk : Bool)
    (client : Client) : Option Bool :=
  if !enabled then some true
  else if client.email = "" then none
  else if !client.receive_email_reports then none
  else some transportOk

/-- Python truthiness of the `send_report_email` result as tested by
`ReportService.send_report` line 151 (`None` and `False` are falsy). -/
def emailResultTruthy (o : Option Bool) : Bool := o.getD false

/-! ### `ReportService.send_report` (report_service.py lines 141-171) -/

/-- The outcome of `send_report`: the per-channel `results` dict
(an association list in insertion order) plus the report delivery
flags it set (`report.sent_via_email` / `report.sent_via_whatsapp`,
both `False` on a freshly created report). -/
structure SendReportOutcome where
  results : List (String × String)
  sent_via_email : Bool
  sent_via_whatsapp : Bool
deriving DecidableEq

/-- `ReportService.send_report` (report_service.py lines 141-171).
A channel is attempted only when its flag is set and the client's
preference allows it; an unattempted channel gets no entry in
`results` at all.  An attempted channel yields `sent` exactly when
the service call's Python truthiness holds (for WhatsApp, any
returned `WhatsAppMessage` object is truthy) and `failed` otherwise. -/
def sendReport (emailEnabled emailTransportOk waEnabled waTransportOk : Bool)
    (client : Client) (via_email via_whatsapp : Bool) : SendReportOutcome :=
  let emailPart :=
    if via_email && client.receive_email_reports then
      if emailResultTruthy (sendReportEmail emailEnabled emailTransportOk client) then
        ([("email", "sent")], true)
      else ([("email", "failed")], false)
    else ([], false)
  let waPart :=
    if via_whatsapp && client.receive_whatsapp_alerts then
      if (sendReportSummary waEnabled waTransportOk client).isSome then
        ([("whatsapp", "sent")], true)
      else ([("whatsapp", "failed")], false)
    else ([], false)
  { results := emailPart.1 ++ waPart.1
    sent_via_email := emailPart.2
    sent_via_whatsapp := waPart.2 }

/-! ### Alert status transitions (views.py lines 327-342) -/

/-- The mutable state of an `Alert` touched by the acknowledge /
resolve endpoints. -/
structure AlertMutableState where
  status : String
  resolved_at : Option Int
deriving DecidableEq

/-- `AlertViewSet.acknowledge` (views.py lines 327-333): sets the
status to `ACKNOWLEDGED` unconditionally. -/
def acknowledge (a : AlertMutableState) : AlertMutableState :=
  { a with status := "ACKNOWLEDGED" }

/-- `AlertViewSet.resolve` (views.py lines 335-342): sets the status to
`RESOLVED` and stamps `resolved_at` unconditionally. -/
def resolve (a : AlertMutableState) (now : Int) : AlertMutableState :=
  { a with status := "RESOLVED", resolved_at := some now }

/-- Position of a status in the spec's forward order
ACTIVE → ACKNOWLEDGED → RESOLVED. -/
def statusRank (s : String) : Nat :=
  if s = "ACTIVE" then 0
  else if s = "ACKNOWLEDGED" then 1
  else if s = "RESOLVED" then 2
  else 3

/-! ### Numeric formatting of report figures
(email_service.py `_generate_html_report` lines 227-257 and
`_generate_text_report` lines 330-338; pdf_service.py
`_create_consumption_summary` lines 176-181 and
`_create_performance_metrics` lines 214-218). -/

/-- Left-pad a digit string with zeros to width `w` (the fractional
part of a Python `:.Nf` rendering is always `N` digits wide). -/
def padZeros (w : Nat) (s : String) : String :=
  String.mk (List.replicate (w - s.length) '0') ++ s

/-- Insert a thousands separator after every group of three digits of a
reversed digit list (helper for Python's `,` format flag). -/
def commaGroupRev : List Char → List Char
  | a :: b :: c :: d :: rest => a :: b :: c :: ',' :: commaGroupRev (d :: rest)
  | l => l

/-- Python's `,` thousands grouping of an integer-part digit string. -/
def groupThousands (s : String) : String :=
  String.mk (commaGroupRev s.toList.reverse).reverse

/-- Python fixed-point formatting `f"{x:.Nf}"` on the rational model of
a report figure: the value scaled by `10 ^ N` and rounded to an
integer, printed with exactly `N` fractional digits.  (Python rounds
the binary double half-to-even; every figure this development
evaluates has an exact scaled value, so no rounding is exercised.) -/
def formatFixed (decimals : Nat) (x : ℚ) : String :=
  let scaled : ℤ := round (x * (10 : ℚ) ^ decimals)
  let sign := if scaled < 0 then "-" else ""
  let n := scaled.natAbs
  let intPart := n / 10 ^ decimals
  let fracPart := n % 10 ^ decimals
  if decimals = 0 then sign ++ toString intPart
  else sign ++ toString intPart ++ "." ++ padZeros decimals (toString fracPart)

/-- Python `f"{x:,.Nf}"`: as `formatFixed`, with the integer part
grouped in thousands. -/
def formatComma (decimals : Nat) (x : ℚ) : String :=
  let scaled : ℤ := round (x * (10 : ℚ) ^ decimals)
  let sign := if scaled < 0 then "-" else ""
  let n := scaled.natAbs
  let intPart := n / 10 ^ decimals
  let fracPart := n % 10 ^ decimals
  if decimals = 0 then sign ++ groupThousands (toString intPart)
  else sign ++ groupThousands (toString intPart) ++ "." ++ padZeros decimals (toString fracPart)

/-- The six numeric figures a report rendering displays. -/
structure ReportFigures where
  total_consumption : String
  daily_average : String
  total_cost : String
  peak_power : String
  power_factor : String
  uptime : String
deriving DecidableEq

/-- Figure strings of the HTML email body
(`EmailService._generate_html_report`, email_service.py lines
227-257): `:.2f` kWh figures, `:,.2f` cost, `:.0f` watts,
`:.2f` power factor, `:.1f` hours. -/
def htmlFigures (r : EnergyReport) : ReportFigures :=
  { total_consumption := formatFixed 2 r.total_consumption_kwh ++ " kWh"
    daily_average := formatFixed 2 r.avg_daily_consumption ++ " kWh"
    total_cost := "₦" ++ formatComma 2 r.total_cost
    peak_power := formatFixed 0 r.peak_power ++ " W"
    power_factor := formatFixed 2 r.avg_power_factor
    uptime := formatFixed 1 r.uptime_hours ++ " hours" }

/-- Figure strings of the plain-text email body
(`EmailService._generate_text_report`, email_service.py lines
330-338): the same format specifiers as the HTML body. -/
def textFigures (r : EnergyReport) : ReportFigures :=
  { total_consumption := formatFixed 2 r.total_consumption_kwh ++ " kWh"
    daily_average := formatFixed 2 r.avg_daily_consumption ++ " kWh"
    total_cost := "₦" ++ formatComma 2 r.total_cost
    peak_power := formatFixed 0 r.peak_power ++ " W"
    power_factor := formatFixed 2 r.avg_power_factor
    uptime := formatFixed 1 r.uptime_hours ++ " hours" }

/-- Figure strings of the PDF tables
(`PDFReportService._create_consumption_summary` lines 176-181 and
`_create_performance_metrics` lines 214-218): as the HTML body except
that the average power factor is rendered `:.3f` (three decimals). -/
def pdfFigures (r : EnergyReport) : ReportFigures :=
  { total_consumption := formatFixed 2 r.total_consumption_kwh ++ " kWh"
    daily_average := formatFixed 2 r.avg_daily_consumption ++ " kWh"
    total_cost := "₦" ++ formatComma 2 r.total_cost
    peak_power := formatFixed 0 r.peak_power ++ " W"
    power_factor := formatFixed 3 r.avg_power_factor
    uptime := formatFixed 1 r.uptime_hours ++ " hours" }

/-! ### Concrete fixtures used to instantiate the theorems -/

/-- A device with no stored rows at all. -/
def sampleDevice : DeviceData :=
  { device := { device_id := "dev-1", device_name := "Inverter 1" }
    consumption_records := []
    readings := []
    alerts := [] }

/-- A client owning exactly one (row-less) device, all delivery
preferences enabled. -/
def sampleClient : Client :=
  { name := "Acme"
    email := "acme@example.com"
    whatsapp_number := "+2340000000001"
    receive_email_reports := true
    receive_whatsapp_alerts := true
    devices := [sampleDevice] }

/-- A client with no attached devices. -/
def clientNoDevices : Client :=
  { name := "Empty"
    email := "empty@example.com"
    whatsapp_number := "+2340000000002"
    receive_email_reports := true
    receive_whatsapp_alerts := true
    devices := [] }

/-- Device A of the spec's pooled-average example: ten readings with
power factor 0.90. -/
def devA : DeviceData :=
  { device := { device_id := "A", device_name := "Device A" }
    consumption_records := []
    readings := List.replicate 10 { dateOf := 0, power_factor := 9/10 }
    alerts := [] }

/-- Device B of the spec's pooled-average example: two readings with
power factor 0.80. -/
def devB : DeviceData :=
  { device := { device_id := "B", device_name := "Device B" }
    consumption_records := []
    readings := List.replicate 2 { dateOf := 0, power_factor := 4/5 }
    alerts := [] }

/-- The two-device client of the spec's pooled-average example. -/
def clientAB : Client :=
  { name := "Pooled"
    email := "pooled@example.com"
    whatsapp_number := "+2340000000003"
    receive_email_reports := true
    receive_whatsapp_alerts := true
    devices := [devA, devB] }

/-- A client who disabled WhatsApp report delivery in preferences. -/
def clientWaDisabled : Client :=
  { name := "NoWA"
    email := "nowa@example.com"
    whatsapp_number := "+2340000000004"
    receive_email_reports := true
    receive_whatsapp_alerts := false
    devices := [sampleDevice] }

/-- A client with email reports enabled but no email address on file. -/
def clientNoEmail : Client :=
  { name := "NoEmail"
    email := ""
    whatsapp_number := "+2340000000005"
    receive_email_reports := true
    receive_whatsapp_alerts := true
    devices := [sampleDevice] }

/-- A concrete generated report used to compare the three renderers
(45.20 kWh over a week, peak 350 W, power factor 0.90, 0.5 h uptime). -/
def sampleReport : EnergyReport :=
  { report_type := "WEEKLY"
    start_date := -6
    end_date := 0
    total_consumption_kwh := 452/10
    total_cost := 1234567/100
    avg_daily_consumption := 452/70
    peak_power := 350
    avg_power_factor := 9/10
    uptime_hours := 1/2
    total_alerts := 0
    critical_alerts := 0
    device_data := [] }

/-- A freshly created alert, as stored by `AlertViewSet.create`
(`status` defaults to `ACTIVE`, models.py line 100). -/
def sampleAlert : AlertMutableState :=
  { status := "ACTIVE", resolved_at := none }

/-- The per-device statistics of `clientAB`'s devices over the default
weekly range anchored at day 0. -/
def statsAB : List DeviceStats :=
  clientAB.devices.map (fun d => getDeviceStatistics d
    (resolveRange 0 "WEEKLY" none none).1 (resolveRange 0 "WEEKLY" none none).2)

/-! ## Helper lemmas -/

/-- The `x += f(item)` accumulation loop over a list equals the sum of
the mapped values. -/
theorem foldl_add_eq_sum {M : Type*} [AddCommMonoid M] {α : Type*}
    (f : α → M) (l : List α) (init : M) :
    l.foldl (fun a s => a + f s) init = init + (l.map f).sum := by
  induction l generalizing init with
  | nil => simp
  | cons x xs ih => simp [ih, add_assoc]

/-- The `acc.extend(f(item))` accumulation loop over a list equals the
concatenation of the mapped lists. -/
theorem foldl_append_eq_flatten {α β : Type*} (f : α → List β) (l : List α)
    (init : List β) :
    l.foldl (fun a s => a ++ f s) init = init ++ (l.map f).flatten := by
  induction l generalizing init with
  | nil => simp
  | cons x xs ih => simp [ih]

/-- Specification of the `acc = max(acc, item)` loop: the result is the
initial value or a list element, is at least the initial value, and
bounds every list element. -/
theorem foldl_max_spec (l : List ℚ) (init : ℚ) :
    (l.foldl max init = init ∨ l.foldl max init ∈ l)
      ∧ init ≤ l.foldl max init
      ∧ ∀ x ∈ l, x ≤ l.foldl max init := by
  induction l generalizing init with
  | nil => simp
  | cons y ys ih =>
    obtain ⟨hmem, hinit, hbound⟩ := ih (max init y)
    have hstep : List.foldl max init (y :: ys) = List.foldl max (max init y) ys := rfl
    refine ⟨?_, ?_, ?_⟩
    · rcases hmem with h | h
      · rcases max_choice init y with hc | hc
        · exact Or.inl (by rw [hstep, h, hc])
        · refine Or.inr ?_
          rw [hstep, h, hc]
          exact List.mem_cons_self y ys
      · exact Or.inr (List.mem_cons_of_mem _ h)
    · rw [hstep]
      exact le_trans (le_max_left init y) hinit
    · intro x hx
      rw [hstep]
      rcases List.mem_cons.mp hx with hx | hx
      · rw [hx]
        exact le_trans (le_max_right init y) hinit
      · exact hbound x hx

/-- Unfolding of the `total_consumption` accumulation in `buildReport`. -/
theorem buildReport_consumption (rt : String) (s e : Date) (devs : List DeviceData) :
    (buildReport rt s e devs).total_consumption_kwh
      = ((devs.map (fun d => getDeviceStatistics d s e)).map (·.consumption)).sum := by
  have h : (buildReport rt s e devs).total_consumption_kwh
      = (devs.map (fun d => getDeviceStatistics d s e)).foldl
          (fun a t => a + t.consumption) 0 := rfl
  rw [h, foldl_add_eq_sum]
  exact zero_add _

/-- Unfolding of the `total_cost` accumulation in `buildReport`. -/
theorem buildReport_cost (rt : String) (s e : Date) (devs : List DeviceData) :
    (buildReport rt s e devs).total_cost
      = ((devs.map (fun d => getDeviceStatistics d s e)).map (·.cost)).sum := by
  have h : (buildReport rt s e devs).total_cost
      = (devs.map (fun d => getDeviceStatistics d s e)).foldl
          (fun a t => a + t.cost) 0 := rfl
  rw [h, foldl_add_eq_sum]
  exact zero_add _

/-- Unfolding of the `uptime_hours` accumulation in `buildReport`. -/
theorem buildReport_uptime (rt : String) (s e : Date) (devs : List DeviceData) :
    (buildReport rt s e devs).uptime_hours
      = ((devs.map (fun d => getDeviceStatistics d s e)).map (·.uptime)).sum := by
  have h : (buildReport rt s e devs).uptime_hours
      = (devs.map (fun d => getDeviceStatistics d s e)).foldl
          (fun a t => a + t.uptime) 0 := rfl
  rw [h, foldl_add_eq_sum]
  exact zero_add _

/-- Unfolding of the `total_alerts` accumulation in `buildReport`. -/
theorem buildReport_alerts (rt : String) (s e : Date) (devs : List DeviceData) :
    (buildReport rt s e devs).total_alerts
      = ((devs.map (fun d => getDeviceStatistics d s e)).map (·.alerts)).sum := by
  have h : (buildReport rt s e devs).total_alerts
      = (devs.map (fun d => getDeviceStatistics d s e)).foldl
          (fun a t => a + t.alerts) 0 := rfl
  rw [h, foldl_add_eq_sum]
  exact zero_add _

/-- Unfolding of the `critical_alerts` accumulation in `buildReport`. -/
theorem buildReport_critical_alerts (rt : String) (s e : Date) (devs : List DeviceData) :
    (buildReport rt s e devs).critical_alerts
      = ((devs.map (fun d => getDeviceStatistics d s e)).map (·.critical_alerts)).sum := by
  have h : (buildReport rt s e devs).critical_alerts
      = (devs.map (fun d => getDeviceStatistics d s e)).foldl
          (fun a t => a + t.critical_alerts) 0 := rfl
  rw [h, foldl_add_eq_sum]
  exact zero_add _

/-- Unfolding of the `power_factors.extend` accumulation in
`buildReport`: the pooled sample list is the concatenation of the
per-device sample lists. -/
theorem buildReport_pooled_power_factors (s e : Date)
    (devs : List DeviceData) :
    (devs.map (fun d => getDeviceStatistics d s e)).foldl
        (fun a t => a ++ t.power_factors) []
      = ((devs.map (fun d => getDeviceStatistics d s e)).map (·.power_factors)).flatten := by
  rw [foldl_append_eq_flatten]
  exact List.nil_append _

/-- Unfolding of the `peak_power = max(...)` accumulation in
`buildReport`. -/
theorem buildReport_peak (rt : String) (s e : Date) (devs : List DeviceData) :
    (buildReport rt s e devs).peak_power
      = ((devs.map (fun d => getDeviceStatistics d s e)).map (·.peak_power)).foldl max 0 := by
  have h : (buildReport rt s e devs).peak_power
      = (devs.map (fun d => getDeviceStatistics d s e)).foldl
          (fun a t => max a t.peak_power) 0 := rfl
  rw [h]
  conv_rhs => rw [List.foldl_map]

/-! ## Claim theorems -/

/-- C1: for a client with at least one attached device,
`generate_report` combines the per-device statistics exactly as
claimed: total consumption and total cost are sums over devices, peak
power is the maximum over the per-device peaks (power being
non-negative), uptime hours is the per-device `reading count × (5/60)`
summed over devices, both alert counts are sums, and the average power
factor is the sample-weighted mean of all per-reading power-factor
samples pooled across devices. -/
theorem generate_report_combines_device_statistics
    (today : Date) (c : Client) (report_type : String) (s? e? : Option Date)
    (stats : List DeviceStats)
    (hdev : c.devices ≠ [])
    (hstats : stats = c.devices.map (fun d =>
        getDeviceStatistics d (resolveRange today report_type s? e?).1
          (resolveRange today report_type s? e?).2))
    (hpk : ∀ t ∈ stats, 0 ≤ t.peak_power) :
    ∃ r, generate_report today c report_type none s? e? = some r
      ∧ r.device_data = stats
      ∧ r.total_consumption_kwh = (stats.map (·.consumption)).sum
      ∧ r.total_cost = (stats.map (·.cost)).sum
      ∧ (r.peak_power ∈ stats.map (·.peak_power)
          ∧ ∀ p ∈ stats.map (·.peak_power), p ≤ r.peak_power)
      ∧ r.uptime_hours = (c.devices.map (fun d =>
          ((readingsInRange d (resolveRange today report_type s? e?).1
              (resolveRange today report_type s? e?).2).length : ℚ) * (5 / 60))).sum
      ∧ r.total_alerts = (stats.map (·.alerts)).sum
      ∧ r.critical_alerts = (stats.map (·.critical_alerts)).sum
      ∧ ((stats.map (·.power_factors)).flatten ≠ [] →
          r.avg_power_factor = ((stats.map (·.power_factors)).flatten).sum
            / (((stats.map (·.power_factors)).flatten).length : ℚ)) := by
  subst hstats
  have hne : c.devices.isEmpty = false := by
    cases hd : c.devices with
    | nil => exact absurd hd hdev
    | cons d ds => rfl
  refine ⟨buildReport report_type (resolveRange today report_type s? e?).1
      (resolveRange today report_type s? e?).2 c.devices,
    ?_, rfl, ?_, ?_, ?_, ?_, ?_, ?_, ?_⟩
  · simp [generate_report, hne]
  · rw [buildReport_consumption]
  · rw [buildReport_cost]
  · rw [buildReport_peak]
    obtain ⟨hmem, -, hbound⟩ := foldl_max_spec
      ((c.devices.map (fun d => getDeviceStatistics d
          (resolveRange today report_type s? e?).1
          (resolveRange today report_type s? e?).2)).map (·.peak_power)) 0
    refine ⟨?_, fun p hp => hbound p hp⟩
    rcases hmem with h0 | hm
    · have hLne : ((c.devices.map (fun d => getDeviceStatistics d
          (resolveRange today report_type s? e?).1
          (resolveRange today report_type s? e?).2)).map (·.peak_power)) ≠ [] := by
        simp only [ne_eq, List.map_eq_nil_iff]
        exact hdev
      obtain ⟨x, hx⟩ := List.exists_mem_of_ne_nil _ hLne
      have hx0 : (0:ℚ) ≤ x := by
        obtain ⟨t, ht, hxt⟩ := List.mem_map.mp hx
        exact hxt ▸ hpk t ht
      have hxle : x ≤ 0 := h0 ▸ hbound x hx
      have hx_eq : x = 0 := le_antisymm hxle hx0
      rw [h0, ← hx_eq]
      exact hx
    · exact hm
  · rw [buildReport_uptime, List.map_map]
    rfl
  · rw [buildReport_alerts]
  · rw [buildReport_critical_alerts]
  · intro hflat
    have h0 : (buildReport report_type (resolveRange today report_type s? e?).1
          (resolveRange today report_type s? e?).2 c.devices).avg_power_factor
        = (if ((c.devices.map (fun d => getDeviceStatistics d
              (resolveRange today report_type s? e?).1
              (resolveRange today report_type s? e?).2)).foldl
              (fun a t => a ++ t.power_factors) []).isEmpty then 0
           else ((c.devices.map (fun d => getDeviceStatistics d
              (resolveRange today report_type s? e?).1
              (resolveRange today report_type s? e?).2)).foldl
              (fun a t => a ++ t.power_factors) []).sum
            / (((c.devices.map (fun d => getDeviceStatistics d
              (resolveRange today report_type s? e?).1
              (resolveRange today report_type s? e?).2)).foldl
              (fun a t => a ++ t.power_factors) []).length : ℚ)) := rfl
    rw [h0, buildReport_pooled_power_factors]
    have hne2 : ((c.devices.map (fun d => getDeviceStatistics d
        (resolveRange today report_type s? e?).1
        (resolveRange today report_type s? e?).2)).map (·.power_factors)).flatten.isEmpty
        = false := by
      cases hf : ((c.devices.map (fun d => getDeviceStatistics d
          (resolveRange today report_type s? e?).1
          (resolveRange today report_type s? e?).2)).map (·.power_factors)).flatten with
      | nil => exact absurd hf hflat
      | cons a as => rfl
    rw [hne2]
    simp

/-- C1 witness: the spec's own example — device A with ten samples
averaging 0.90 and device B with two samples averaging 0.80 — where
the pooled average comes out as (10×0.90 + 2×0.80)/12 = 53/60
≈ 0.8833, not 0.85. -/
theorem generate_report_combines_device_statistics_witness :
    (clientAB.devices ≠ [] ∧ ∀ t ∈ statsAB, 0 ≤ t.peak_power)
    ∧ (∃ r, generate_report 0 clientAB "WEEKLY" none none none = some r
        ∧ r.device_data = statsAB
        ∧ r.total_consumption_kwh = (statsAB.map (·.consumption)).sum
        ∧ r.total_cost = (statsAB.map (·.cost)).sum
        ∧ (r.peak_power ∈ statsAB.map (·.peak_power)
            ∧ ∀ p ∈ statsAB.map (·.peak_power), p ≤ r.peak_power)
        ∧ r.uptime_hours = (clientAB.devices.map (fun d =>
            ((readingsInRange d (resolveRange 0 "WEEKLY" none none).1
                (resolveRange 0 "WEEKLY" none none).2).length : ℚ) * (5 / 60))).sum
        ∧ r.total_alerts = (statsAB.map (·.alerts)).sum
        ∧ r.critical_alerts = (statsAB.map (·.critical_alerts)).sum
        ∧ ((statsAB.map (·.power_factors)).flatten ≠ [] →
            r.avg_power_factor = ((statsAB.map (·.power_factors)).flatten).sum
              / (((statsAB.map (·.power_factors)).flatten).length : ℚ)))
    ∧ (generate_report 0 clientAB "WEEKLY" none none none).map
        (fun r => r.avg_power_factor) = some (53/60) := by
  refine ⟨⟨by simp [clientAB], by decide⟩, ?_, ?_⟩
  · exact generate_report_combines_device_statistics 0 clientAB "WEEKLY" none none
      statsAB (by simp [clientAB]) rfl (by decide)
  · simp [generate_report, buildReport, getDeviceStatistics, clientAB, devA, devB,
      resolveRange, getDateRange, readingsInRange, consumptionInRange, alertsInRange,
      sumAgg, maxAgg, orZero, List.replicate]
    norm_num

/-- C2 counterexample: a CUSTOM report request without explicit start
and end dates IS given a default date range — `generate_report` falls
back to the weekly default `[today - 6, today]` (here `today = 0`),
contradicting the claim that CUSTOM requires explicit bounds. -/
theorem custom_without_dates_gets_default_range :
    (generate_report 0 sampleClient "CUSTOM" none none none).map
      (fun r => (r.start_date, r.end_date)) = some (-6, 0) := rfl

/-- C2 (amended): the date-range defaults are DAILY = `[today, today]`,
WEEKLY = `[today - 6, today]`, MONTHLY = `[today - 29, today]`; a
CUSTOM request (like any unrecognized report type) without explicit
start and end falls back to the weekly default `[today - 6, today]`
rather than being rejected; and `generate_report` applies these
defaults whenever either bound is missing. -/
theorem date_range_defaults (today : Date) :
    getDateRange today "DAILY" = (today, today)
    ∧ getDateRange today "WEEKLY" = (today - 6, today)
    ∧ getDateRange today "MONTHLY" = (today - 29, today)
    ∧ getDateRange today "CUSTOM" = (today - 6, today)
    ∧ ∀ report_type, resolveRange today report_type none none
        = getDateRange today report_type :=
  ⟨rfl, rfl, rfl, rfl, fun _ => rfl⟩

/-- C3: a report request without an explicit device fails (returns
`none`, creating no `EnergyReport`) exactly when the client has no
attached devices; with an explicit device the device set is exactly
that single device, and otherwise it is all the client's devices. -/
theorem generate_report_device_set (today : Date) (c : Client)
    (report_type : String) (s? e? : Option Date) :
    (generate_report today c report_type none s? e? = none ↔ c.devices = [])
    ∧ (∀ d : DeviceData,
        generate_report today c report_type (some d) s? e?
          = some (buildReport report_type
              (resolveRange today report_type s? e?).1
              (resolveRange today report_type s? e?).2 [d]))
    ∧ (c.devices ≠ [] →
        generate_report today c report_type none s? e?
          = some (buildReport report_type
              (resolveRange today report_type s? e?).1
              (resolveRange today report_type s? e?).2 c.devices)) := by
  refine ⟨?_, fun d => rfl, ?_⟩
  · cases hd : c.devices with
    | nil => simp [generate_report, hd]
    | cons d ds => simp [generate_report, hd]
  · intro h
    have hne : c.devices.isEmpty = false := by
      cases hd : c.devices with
      | nil => exact absurd hd h
      | cons d ds => rfl
    simp [generate_report, hne]

/-- C3 witness: a client with no devices gets no report, and the same
request against a one-device client produces one. -/
theorem generate_report_device_set_witness :
    (sampleClient.devices ≠ [])
    ∧ generate_report 0 clientNoDevices "WEEKLY" none none none = none
    ∧ generate_report 0 sampleClient "WEEKLY" none none none
        = some (buildReport "WEEKLY" (-6) 0 sampleClient.devices) := by
  refine ⟨by simp [sampleClient], ?_, ?_⟩
  · exact (generate_report_device_set 0 clientNoDevices "WEEKLY" none none).1.mpr rfl
  · exact (generate_report_device_set 0 sampleClient "WEEKLY" none none).2.2
      (by simp [sampleClient])

/-- C4: a device with no daily-consumption rows and no readings in the
requested range aggregates to the degenerate zero record (consumption
0, cost 0, peak 0, no power-factor samples, zero uptime);
`getDeviceStatistics` is total, so no error is possible. -/
theorem zero_rows_zero_statistics (dd : DeviceData) (s e : Date)
    (h1 : consumptionInRange dd s e = [])
    (h2 : readingsInRange dd s e = []) :
    (getDeviceStatistics dd s e).consumption = 0
    ∧ (getDeviceStatistics dd s e).cost = 0
    ∧ (getDeviceStatistics dd s e).peak_power = 0
    ∧ (getDeviceStatistics dd s e).power_factors = []
    ∧ (getDeviceStatistics dd s e).uptime = 0 := by
  simp [getDeviceStatistics, h1, h2, sumAgg, orZero, maxAgg]
  rfl

/-- C4 witness: the row-less sample device over the default weekly
range. -/
theorem zero_rows_zero_statistics_witness :
    (consumptionInRange sampleDevice (-6) 0 = []
      ∧ readingsInRange sampleDevice (-6) 0 = [])
    ∧ ((getDeviceStatistics sampleDevice (-6) 0).consumption = 0
      ∧ (getDeviceStatistics sampleDevice (-6) 0).cost = 0
      ∧ (getDeviceStatistics sampleDevice (-6) 0).peak_power = 0
      ∧ (getDeviceStatistics sampleDevice (-6) 0).power_factors = []
      ∧ (getDeviceStatistics sampleDevice (-6) 0).uptime = 0) :=
  ⟨⟨rfl, rfl⟩, zero_rows_zero_statistics sampleDevice (-6) 0 rfl rfl⟩

/-- C5: the automatic WhatsApp notification for a newly created alert
is triggered exactly for WARNING and CRITICAL severities; an
INFO-severity alert never produces a notification record (whatever the
transport configuration and recipients), and no record is produced
whenever the gate is closed. -/
theorem alert_whatsapp_severity_gate (severity : String)
    (enabled transportOk : Bool) (deviceClients : List Client) :
    (whatsappAlertTriggered severity = true
      ↔ severity = "WARNING" ∨ severity = "CRITICAL")
    ∧ alertCreateMessages enabled transportOk deviceClients "INFO" = []
    ∧ (whatsappAlertTriggered severity = false →
        alertCreateMessages enabled transportOk deviceClients severity = []) := by
  refine ⟨?_, rfl, ?_⟩
  · simp [whatsappAlertTriggered]
  · intro h
    simp [alertCreateMessages, h]

/-- C5 witness: an INFO alert against a configured transport with an
eligible recipient still produces no record. -/
theorem alert_whatsapp_severity_gate_witness :
    whatsappAlertTriggered "INFO" = false
    ∧ alertCreateMessages true true [sampleClient] "INFO" = [] :=
  ⟨rfl, (alert_whatsapp_severity_gate "INFO" true true [sampleClient]).2.2 rfl⟩

/-- C9 counterexample: the operator action sequence resolve-then-
acknowledge moves an alert backward, from RESOLVED to ACKNOWLEDGED —
the endpoints do not enforce the forward-only order. -/
theorem resolved_alert_moves_backward :
    (resolve sampleAlert 5).status = "RESOLVED"
    ∧ (acknowledge (resolve sampleAlert 5)).status = "ACKNOWLEDGED"
    ∧ statusRank ((acknowledge (resolve sampleAlert 5)).status)
        < statusRank ((resolve sampleAlert 5).status) :=
  ⟨rfl, rfl, by decide⟩

/-- C9 (amended): `acknowledge` always sets status ACKNOWLEDGED and
`resolve` always sets status RESOLVED (stamping `resolved_at`),
regardless of the current status — the forward-only transition order
is not enforced, so resolve-then-acknowledge moves a RESOLVED alert
back to ACKNOWLEDGED. -/
theorem alert_status_set_unconditionally (a : AlertMutableState) (now : Int) :
    (acknowledge a).status = "ACKNOWLEDGED"
    ∧ (resolve a now).status = "RESOLVED"
    ∧ (resolve a now).resolved_at = some now
    ∧ acknowledge (resolve a now)
        = { status := "ACKNOWLEDGED", resolved_at := some now } :=
  ⟨rfl, rfl, rfl, rfl⟩

/-- C10: every report type other than DAILY, WEEKLY and MONTHLY —
CUSTOM included — silently gets the weekly default range
`[today - 6, today]`, and a `generate_report` call without explicit
dates succeeds with that range (no rejection, no error). -/
theorem unrecognized_report_type_weekly_default (today : Date) (c : Client)
    (report_type : String)
    (h1 : report_type ≠ "DAILY") (h2 : report_type ≠ "WEEKLY")
    (h3 : report_type ≠ "MONTHLY") :
    getDateRange today report_type = (today - 6, today)
    ∧ (c.devices ≠ [] →
        ∃ r, generate_report today c report_type none none none = some r
          ∧ r.start_date = today - 6 ∧ r.end_date = today) := by
  have hr : getDateRange today report_type = (today - 6, today) := by
    simp [getDateRange, h1, h2, h3]
  refine ⟨hr, ?_⟩
  intro h
  have hne : c.devices.isEmpty = false := by
    cases hd : c.devices with
    | nil => exact absurd hd h
    | cons d ds => rfl
  refine ⟨buildReport report_type (today - 6) today c.devices, ?_, rfl, rfl⟩
  simp [generate_report, hne, resolveRange, hr]

/-- C10 witness: report type CUSTOM at `today = 0` against the
one-device sample client. -/
theorem unrecognized_report_type_weekly_default_witness :
    (("CUSTOM" : String) ≠ "DAILY" ∧ ("CUSTOM" : String) ≠ "WEEKLY"
      ∧ ("CUSTOM" : String) ≠ "MONTHLY" ∧ sampleClient.devices ≠ [])
    ∧ (getDateRange 0 "CUSTOM" = (0 - 6, 0)
      ∧ ∃ r, generate_report 0 sampleClient "CUSTOM" none none none = some r
          ∧ r.start_date = 0 - 6 ∧ r.end_date = 0) := by
  refine ⟨⟨by decide, by decide, by decide, by simp [sampleClient]⟩, ?_, ?_⟩
  · exact (unrecognized_report_type_weekly_default 0 sampleClient "CUSTOM"
      (by decide) (by decide) (by decide)).1
  · exact (unrecognized_report_type_weekly_default 0 sampleClient "CUSTOM"
      (by decide) (by decide) (by decide)).2 (by simp [sampleClient])

/-- C6 counterexample: a channel the client disabled is never given the
result value `skipped` — it simply gets no entry in the result map
(`lookup` is `none`); and a client lacking an email address, with the
email transport configured, gets `failed` for the email channel. -/
theorem disabled_channel_not_marked_skipped :
    ((sendReport true true true true clientWaDisabled true true).results.lookup
        "whatsapp" = none)
    ∧ ((sendReport true true true true clientWaDisabled true true).results.lookup
        "whatsapp" ≠ some "skipped")
    ∧ ((sendReport true true true true clientNoEmail true true).results.lookup
        "email" = some "failed") :=
  ⟨rfl, by decide, rfl⟩

/-- C6 (amended): a channel disabled in the client's preferences is
skipped by omission — `send_report` gives it no entry at all in the
per-channel result map, which is still distinguishable from `failed`;
but a client lacking the email contact field, with the email transport
configured, gets the entry `failed` for the email channel rather than
a skip. -/
theorem send_report_channel_results
    (emailEnabled emailTransportOk waEnabled waTransportOk : Bool)
    (client : Client) (via_email via_whatsapp : Bool) :
    (client.receive_whatsapp_alerts = false →
      (sendReport emailEnabled emailTransportOk waEnabled waTransportOk client
          via_email via_whatsapp).results.lookup "whatsapp" = none)
    ∧ (client.receive_email_reports = false →
      (sendReport emailEnabled emailTransportOk waEnabled waTransportOk client
          via_email via_whatsapp).results.lookup "email" = none)
    ∧ (emailEnabled = true → client.email = "" →
        client.receive_email_reports = true → via_email = true →
      (sendReport emailEnabled emailTransportOk waEnabled waTransportOk client
          via_email via_whatsapp).results.lookup "email" = some "failed") := by
  refine ⟨?_, ?_, ?_⟩
  · intro h
    cases hve : (via_email && client.receive_email_reports) with
    | false => simp [sendReport, h, hve]
    | true =>
      cases ht : emailResultTruthy (sendReportEmail emailEnabled emailTransportOk client) with
      | false => simp [sendReport, h, hve, ht, List.lookup]
      | true => simp [sendReport, h, hve, ht, List.lookup]
  · intro h
    cases hvw : (via_whatsapp && client.receive_whatsapp_alerts) with
    | false => simp [sendReport, h, hvw]
    | true =>
      cases hs : (sendReportSummary waEnabled waTransportOk client).isSome with
      | false => simp [sendReport, h, hvw, hs, List.lookup]
      | true => simp [sendReport, h, hvw, hs, List.lookup]
  · intro h1 h2 h3 h4
    simp [sendReport, h1, h2, h3, h4, sendReportEmail, emailResultTruthy, List.lookup]

/-- C6 amended-claim witness: the WhatsApp-disabled client's channel is
omitted, and the email-less client's email channel is `failed`. -/
theorem send_report_channel_results_witness :
    (clientWaDisabled.receive_whatsapp_alerts = false
      ∧ clientNoEmail.email = "" ∧ clientNoEmail.receive_email_reports = true)
    ∧ (sendReport true true true true clientWaDisabled true true).results.lookup
        "whatsapp" = none
    ∧ (sendReport true true true true clientNoEmail true true).results.lookup
        "email" = some "failed" :=
  ⟨⟨rfl, rfl, rfl⟩,
    (send_report_channel_results true true true true clientWaDisabled true true).1 rfl,
    (send_report_channel_results true true true true clientNoEmail true true).2.2
      rfl rfl rfl rfl⟩

/-- C7 counterexample: with the WhatsApp transport unconfigured, a
report dispatch creates no notification record at all
(`send_report_summary` returns `None`), and `send_report` marks the
channel `failed` and leaves `sent_via_whatsapp` false — the
mock-SENT-record path does not cover reports. -/
theorem unconfigured_report_send_no_mock_record :
    sendReportSummary false true sampleClient = none
    ∧ (sendReport true true false true sampleClient true true).results.lookup
        "whatsapp" = some "failed"
    ∧ (sendReport true true false true sampleClient true true).sent_via_whatsapp
        = false :=
  ⟨rfl, rfl, rfl⟩

/-- C7 (amended): the unconfigured-transport mock path exists only for
alerts: `send_alert_message` without credentials records exactly one
notification record with status SENT; `send_report_summary` without
credentials returns `None` (no record), so `send_report` reports
`failed` for the WhatsApp channel and leaves `sent_via_whatsapp`
false. -/
theorem unconfigured_mock_record_alerts_only (transportOk : Bool)
    (deviceClients : List Client) (client : Client)
    (emailEnabled emailTransportOk waTransportOk via_email : Bool) :
    sendAlertMessage false transportOk deviceClients = some [createMockMessage none]
    ∧ (createMockMessage none).status = "SENT"
    ∧ sendReportSummary false transportOk client = none
    ∧ (client.receive_whatsapp_alerts = true →
        (sendReport emailEnabled emailTransportOk false waTransportOk client
            via_email true).results.lookup "whatsapp" = some "failed"
        ∧ (sendReport emailEnabled emailTransportOk false waTransportOk client
            via_email true).sent_via_whatsapp = false) := by
  refine ⟨rfl, rfl, rfl, ?_⟩
  intro h
  constructor
  · cases hve : (via_email && client.receive_email_reports) with
    | false => simp [sendReport, h, hve, sendReportSummary, List.lookup]
    | true =>
      cases ht : emailResultTruthy (sendReportEmail emailEnabled emailTransportOk client) with
      | false => simp [sendReport, h, hve, ht, sendReportSummary, List.lookup]
      | true => simp [sendReport, h, hve, ht, sendReportSummary, List.lookup]
  · simp [sendReport, h, sendReportSummary]

/-- C7 amended-claim witness: the sample client (WhatsApp enabled)
against the unconfigured transport. -/
theorem unconfigured_mock_record_alerts_only_witness :
    sampleClient.receive_whatsapp_alerts = true
    ∧ ((sendReport true true false true sampleClient true true).results.lookup
          "whatsapp" = some "failed"
      ∧ (sendReport true true false true sampleClient true true).sent_via_whatsapp
          = false) :=
  ⟨rfl, (unconfigured_mock_record_alerts_only true [] sampleClient true true true true).2.2.2 rfl⟩

/-- C8 counterexample: on a report with average power factor 0.9 the
PDF renders `0.900` (three decimals, pdf_service.py line 217) while
the HTML and plain-text bodies render `0.90` (two decimals) — the
three formats do not display the power factor identically. -/
theorem renderer_power_factor_mismatch :
    (pdfFigures sampleReport).power_factor = "0.900"
    ∧ (htmlFigures sampleReport).power_factor = "0.90"
    ∧ (textFigures sampleReport).power_factor = "0.90"
    ∧ (pdfFigures sampleReport).power_factor
        ≠ (htmlFigures sampleReport).power_factor := by
  have h3 : round ((9:ℚ)/10 * 10 ^ 3) = 900 := by norm_num [round_eq]
  have h2 : round ((9:ℚ)/10 * 10 ^ 2) = 90 := by norm_num [round_eq]
  refine ⟨?_, ?_, ?_, ?_⟩
  · simp [pdfFigures, sampleReport, formatFixed, h3, padZeros]
    decide
  · simp [htmlFigures, sampleReport, formatFixed, h2, padZeros]
    decide
  · simp [textFigures, sampleReport, formatFixed, h2, padZeros]
    decide
  · simp [pdfFigures, htmlFigures, sampleReport, formatFixed, h3, h2, padZeros]
    decide

/-- C8 (amended): the HTML and plain-text renderings use identical
formatting for every figure, and the PDF agrees with them on the kWh
figures (2 decimals), the currency amount (2 decimals, thousands
grouping), the peak power (0 decimals) and the uptime hours
(1 decimal); but the average power factor is rendered with 3 decimals
in the PDF against 2 in HTML and plain text, so that one figure is not
identical across the three formats. -/
theorem renderer_figures_agreement (r : EnergyReport) :
    htmlFigures r = textFigures r
    ∧ (pdfFigures r).total_consumption = (htmlFigures r).total_consumption
    ∧ (pdfFigures r).daily_average = (htmlFigures r).daily_average
    ∧ (pdfFigures r).total_cost = (htmlFigures r).total_cost
    ∧ (pdfFigures r).peak_power = (htmlFigures r).peak_power
    ∧ (pdfFigures r).uptime = (htmlFigures r).uptime
    ∧ (pdfFigures r).power_factor = formatFixed 3 r.avg_power_factor
    ∧ (htmlFigures r).power_factor = formatFixed 2 r.avg_power_factor :=
  ⟨rfl, rfl, rfl, rfl, rfl, rfl, rfl, rfl⟩

end PowerMonitor
